import Mathlib

/-!
Shallow embedding of the `sdcli` Go package (a Stable Diffusion web UI
HTTP API client) and proofs about its behaviour.

The embedding models the package's pure logic faithfully:
  * JSON serialisation of the request option structs with Go's
    `omitempty` semantics (a field is omitted when it holds its zero
    value: `false`, `0`, the empty string, a nil pointer, a nil slice);
    Go `float32` fields are modelled as `Rat` (only their zero test
    matters to the encoder structure), and the concrete digit formatting
    of numbers by the Go standard library is abstracted by `toString`.
  * Go's `strings.SplitN` (the package only calls it with separator ","
    and limit 1); a negative limit, unused here, is modelled by bounding
    the number of splits by the string length, which is equivalent to
    Go's count-based bound for a non-empty separator.
  * The shared request routine `doReq`, split into the pure request
    construction (`buildRequest`) and the pure response handling
    (`handleResponse`); the network transport and the JSON decoder for
    response bodies are parameters, since the Go standard library's
    socket layer and reflection-based `json.Unmarshal` live outside the
    package.
  * The per-endpoint post-decode enrichment loops that base64- and
    PNG-decode the image payloads; `base64.StdEncoding.EncodeToString`
    is implemented concretely over byte lists, while the decoders and
    `png.Decode`/`png.Encode` are parameters (their implementations are
    standard-library code, and every claim proved below holds for all of
    them).
-/

namespace Sdcli

/-- A JSON value, as produced by the package's use of `encoding/json`. -/
inductive JsonValue where
  | str : String → JsonValue
  | int : Int → JsonValue
  | rat : Rat → JsonValue
  | bool : Bool → JsonValue
  | arr : List JsonValue → JsonValue
  | obj : List (String × JsonValue) → JsonValue
  | null : JsonValue
deriving Repr

/-- Escape one character of a JSON string the way `encoding/json` does for
the characters that can appear in this package's payloads. -/
def escapeChar (c : Char) : String :=
  if c = '"' then "\\\""
  else if c = '\\' then "\\\\"
  else if c = '\n' then "\\n"
  else if c = '\t' then "\\t"
  else if c = '\r' then "\\r"
  else String.singleton c

/-- Render a string as a quoted JSON string literal. -/
def renderString (s : String) : String :=
  "\"" ++ String.join (s.data.map escapeChar) ++ "\""

mutual

/-- Render a JSON value to its wire text. -/
def renderJson : JsonValue → String
  | .str s => renderString s
  | .int i => toString i
  | .rat q => toString q
  | .bool b => if b then "true" else "false"
  | .null => "null"
  | .arr vs => "[" ++ renderJsonArr vs ++ "]"
  | .obj fs => "\x7b" ++ renderJsonObj fs ++ "\x7d"

/-- Render the comma-separated elements of a JSON array. -/
def renderJsonArr : List JsonValue → String
  | [] => ""
  | [v] => renderJson v
  | v :: vs => renderJson v ++ "," ++ renderJsonArr vs

/-- Render the comma-separated `"key":value` members of a JSON object. -/
def renderJsonObj : List (String × JsonValue) → String
  | [] => ""
  | [(k, v)] => renderString k ++ ":" ++ renderJson v
  | (k, v) :: fs => renderString k ++ ":" ++ renderJson v ++ "," ++ renderJsonObj fs

end

/-- Field of Go type `string` tagged `json:"key,omitempty"`: emitted only
when non-empty. -/
def jfStr (key v : String) : List (String × JsonValue) :=
  if v.length = 0 then [] else [(key, JsonValue.str v)]

/-- Field of Go type `int` tagged `json:"key,omitempty"`: emitted only
when non-zero. -/
def jfInt (key : String) (v : Int) : List (String × JsonValue) :=
  if v = 0 then [] else [(key, JsonValue.int v)]

/-- Field of Go type `float32` tagged `json:"key,omitempty"`: emitted only
when non-zero. -/
def jfRat (key : String) (v : Rat) : List (String × JsonValue) :=
  if v = 0 then [] else [(key, JsonValue.rat v)]

/-- Field of Go type `bool` tagged `json:"key,omitempty"`: emitted only
when true. -/
def jfBool (key : String) (v : Bool) : List (String × JsonValue) :=
  if v = false then [] else [(key, JsonValue.bool v)]

/-- Field of Go type `[]string` tagged `json:"key,omitempty"`: emitted only
when the slice is non-empty (a nil slice is the zero value). -/
def jfStrList (key : String) (v : List String) : List (String × JsonValue) :=
  if v.length = 0 then [] else [(key, JsonValue.arr (v.map JsonValue.str))]

/-- Field of Go type `[]interface\x7b\x7d` tagged `json:"key,omitempty"`:
emitted only when the slice is non-empty. -/
def jfJsonList (key : String) (v : List JsonValue) : List (String × JsonValue) :=
  if v.length = 0 then [] else [(key, JsonValue.arr v)]

/-- Field holding a pointer to a struct, tagged `json:"key,omitempty"`:
emitted only when the pointer is non-nil, serialising the pointee. -/
def jfObjOpt (key : String) (v : Option (List (String × JsonValue))) :
    List (String × JsonValue) :=
  match v with
  | none => []
  | some fs => [(key, JsonValue.obj fs)]

/-- Index of the first occurrence of `sep` in `s` (character lists), the
model of Go's `strings.Index`. -/
def subIdx : List Char → List Char → Option Nat
  | [], sep => if sep.isEmpty then some 0 else none
  | c :: rest, sep =>
    if sep.isPrefixOf (c :: rest) then some 0
    else (subIdx rest sep).map (· + 1)

/-- Split `s` on `sep` at most `k` times, keeping the unsplit remainder as
the last element: the loop body of Go's `strings.genSplit` with `n = k+1`. -/
def splitAtMost (k : Nat) (s sep : String) : List String :=
  match k with
  | 0 => [s]
  | k + 1 =>
    match subIdx s.data sep.data with
    | none => [s]
    | some i => s.take i :: splitAtMost k (s.drop (i + sep.length)) sep

/-- Model of Go's `strings.explode`: the rune-by-rune split used by
`SplitN` when the separator is empty, producing at most `m` pieces. -/
def explodeAux : List Char → Nat → List String
  | [], _ => []
  | _ :: _, 0 => []
  | cs, 1 => [String.mk cs]
  | c :: cs, m + 2 => String.singleton c :: explodeAux cs (m + 1)

/-- Model of Go's `strings.explode` entry point with its limit clamping. -/
def goExplode (s : String) (n : Int) : List String :=
  let cs := s.data
  let m : Nat := if n < 0 ∨ (cs.length : Int) < n then cs.length else n.toNat
  explodeAux cs m

/-- Model of Go's `strings.SplitN s sep n`.  For `n = 0` the result is
empty; an empty separator explodes the string; a positive `n` caps the
number of substrings at `n`; a negative `n` means no cap (bounded here by
the string length, which a non-empty separator can never exceed). -/
def goSplitN (s sep : String) (n : Int) : List String :=
  if n = 0 then []
  else if sep.length = 0 then goExplode s n
  else if 0 < n then splitAtMost (n.toNat - 1) s sep
  else splitAtMost s.data.length s sep

/-- The payload-extraction step applied by `Txt2Img`, `Img2Img` and
`ExtraSingleImg` to each base64 image string before decoding:
`strings.SplitN(raw, ",", 1)[0]` in the source. -/
def extractPayload (raw : String) : String :=
  (goSplitN raw "," 1).headD ""

/-- The standard base64 alphabet used by Go's `base64.StdEncoding`. -/
def b64Alphabet : List Char :=
  "ABCDEFGHIJKLMNOPQRSTUVWXYZabcdefghijklmnopqrstuvwxyz0123456789+/".data

/-- The base64 digit for a 6-bit value. -/
def b64Char (n : Nat) : Char := b64Alphabet.getD n 'A'

/-- Model of Go's `base64.StdEncoding.EncodeToString` over a byte list
(bytes are `Nat` values below 256), including `=` padding. -/
def base64StdEncode : List Nat → String
  | [] => ""
  | [b0] =>
    String.mk [b64Char (b0 / 4 % 64), b64Char (b0 % 4 * 16)] ++ "=="
  | [b0, b1] =>
    String.mk [b64Char (b0 / 4 % 64), b64Char (b0 % 4 * 16 + b1 / 16 % 16),
      b64Char (b1 % 16 * 4)] ++ "="
  | b0 :: b1 :: b2 :: rest =>
    String.mk [b64Char (b0 / 4 % 64), b64Char (b0 % 4 * 16 + b1 / 16 % 16),
      b64Char (b1 % 16 * 4 + b2 / 64 % 4), b64Char (b2 % 64)] ++
      base64StdEncode rest


/-!
The request/response option structures of the package, field for field.
Go `float32` fields are `Rat`, `*OptionsResponse` is `Option
OptionsResponse`, slices are lists.  Each structure comes with its
`encoding/json` field serialiser (respecting every field's `omitempty`
tag and the declaration order Go marshals in) and its all-zero value.
-/

structure OptionsResponse where
  SdModelCheckpoint : String
  SamplesSave : Bool
  SamplesFormat : String
  SamplesFilenamePattern : String
  SaveImagesAddNumber : Bool
  GridSave : Bool
  GridFormat : String
  GridExtendedFilename : Bool
  GridOnlyIfMultiple : Bool
  GridPreventEmptySpots : Bool
  NRows : Rat
  EnablePnginfo : Bool
  SaveTxt : Bool
  SaveImagesBeforeFaceRestoration : Bool
  SaveImagesBeforeHighresFix : Bool
  SaveImagesBeforeColorCorrection : Bool
  JpegQuality : Rat
  ExportFor4Chan : Bool
  ImgDownscaleThreshold : Rat
  TargetSideLength : Rat
  UseOriginalNameBatch : Bool
  UseUpscalerNameAsSuffix : Bool
  SaveSelectedOnly : Bool
  DoNotAddWatermark : Bool
  TempDir : String
  CleanTempDirAtStart : Bool
  OutdirSamples : String
  OutdirTxt2ImgSamples : String
  OutdirImg2ImgSamples : String
  OutdirExtrasSamples : String
  OutdirGrids : String
  OutdirTxt2ImgGrids : String
  OutdirImg2ImgGrids : String
  OutdirSave : String
  SaveToDirs : Bool
  GridSaveToDirs : Bool
  UseSaveToDirsForUI : Bool
  DirectoriesFilenamePattern : String
  DirectoriesMaxPromptWords : Rat
  ESRGANTile : Rat
  ESRGANTileOverlap : Rat
  RealesrganEnabledModels : List String
  UpscalerForImg2Img : String
  LdsrSteps : Rat
  LdsrCached : Bool
  SWINTile : Rat
  SWINTileOverlap : Rat
  FaceRestorationModel : String
  CodeFormerWeight : Rat
  FaceRestorationUnload : Bool
  ShowWarnings : Bool
  MemmonPollRate : Rat
  SamplesLogStdout : Bool
  MultipleTqdm : Bool
  PrintHypernetExtra : Bool
  UnloadModelsWhenTraining : Bool
  PinMemory : Bool
  SaveOptimizerState : Bool
  SaveTrainingSettingsToTxt : Bool
  DatasetFilenameWordRegex : String
  DatasetFilenameJoinString : String
  TrainingImageRepeatsPerEpoch : Rat
  TrainingWriteCsvEvery : Rat
  TrainingXattentionOptimizations : Bool
  TrainingEnableTensorboard : Bool
  TrainingTensorboardSaveImages : Bool
  TrainingTensorboardFlushEvery : Rat
  SdCheckpointCache : Rat
  SdVaeCheckpointCache : Rat
  SdVae : String
  SdVaeAsDefault : Bool
  InpaintingMaskWeight : Rat
  InitialNoiseMultiplier : Rat
  Img2ImgColorCorrection : Bool
  Img2ImgFixSteps : Bool
  Img2ImgBackgroundColor : String
  EnableQuantization : Bool
  EnableEmphasis : Bool
  EnableBatchSeeds : Bool
  CommaPaddingBacktrack : Rat
  CLIPStopAtLastLayers : Rat
  UpcastAttn : Bool
  UseOldEmphasisImplementation : Bool
  UseOldKarrasSchedulerSigmas : Bool
  NoDpmppSdeBatchDeterminism : Bool
  UseOldHiresFixWidthHeight : Bool
  InterrogateKeepModelsInMemory : Bool
  InterrogateReturnRanks : Bool
  InterrogateClipNumBeams : Rat
  InterrogateClipMinLength : Rat
  InterrogateClipMaxLength : Rat
  InterrogateClipDictLimit : Rat
  InterrogateClipSkipCategories : List JsonValue
  InterrogateDeepbooruScoreThreshold : Rat
  DeepbooruSortAlpha : Bool
  DeepbooruUseSpaces : Bool
  DeepbooruEscape : Bool
  DeepbooruFilterTags : String
  ExtraNetworksDefaultView : String
  ExtraNetworksDefaultMultiplier : Rat
  SdHypernetwork : String
  SdLora : String
  LoraApplyToOutputs : Bool
  ReturnGrid : Bool
  DoNotShowImages : Bool
  AddModelHashToInfo : Bool
  AddModelNameToInfo : Bool
  DisableWeightsAutoSwap : Bool
  SendSeed : Bool
  SendSize : Bool
  Font : String
  JsModalLightbox : Bool
  JsModalLightboxInitiallyZoomed : Bool
  ShowProgressInTitle : Bool
  SamplersInDropdown : Bool
  DimensionsAndBatchTogether : Bool
  KeyeditPrecisionAttention : Rat
  KeyeditPrecisionExtra : Rat
  Quicksettings : String
  UIReorder : String
  UIExtraNetworksTabReorder : String
  Localization : String
  ShowProgressbar : Bool
  LivePreviewsEnable : Bool
  ShowProgressGrid : Bool
  ShowProgressEveryNSteps : Rat
  ShowProgressType : String
  LivePreviewContent : String
  LivePreviewRefreshPeriod : Rat
  HideSamplers : List JsonValue
  EtaDdim : Rat
  EtaAncestral : Rat
  DdimDiscretize : String
  SChurn : Rat
  STmin : Rat
  SNoise : Rat
  EtaNoiseSeedDelta : Rat
  AlwaysDiscardNextToLastSigma : Bool
  PostprocessingEnableInMainUI : List JsonValue
  PostprocessingOperationOrder : List JsonValue
  UpscalingMaxImagesInCache : Rat
  DisabledExtensions : List JsonValue
  SdCheckpointHash : String

def optionsResponseFields (o : OptionsResponse) : List (String × JsonValue) :=
  jfStr "sd_model_checkpoint" o.SdModelCheckpoint ++
  jfBool "samples_save" o.SamplesSave ++
  jfStr "samples_format" o.SamplesFormat ++
  jfStr "samples_filename_pattern" o.SamplesFilenamePattern ++
  jfBool "save_images_add_number" o.SaveImagesAddNumber ++
  jfBool "grid_save" o.GridSave ++
  jfStr "grid_format" o.GridFormat ++
  jfBool "grid_extended_filename" o.GridExtendedFilename ++
  jfBool "grid_only_if_multiple" o.GridOnlyIfMultiple ++
  jfBool "grid_prevent_empty_spots" o.GridPreventEmptySpots ++
  jfRat "n_rows" o.NRows ++
  jfBool "enable_pnginfo" o.EnablePnginfo ++
  jfBool "save_txt" o.SaveTxt ++
  jfBool "save_images_before_face_restoration" o.SaveImagesBeforeFaceRestoration ++
  jfBool "save_images_before_highres_fix" o.SaveImagesBeforeHighresFix ++
  jfBool "save_images_before_color_correction" o.SaveImagesBeforeColorCorrection ++
  jfRat "jpeg_quality" o.JpegQuality ++
  jfBool "export_for_4chan" o.ExportFor4Chan ++
  jfRat "img_downscale_threshold" o.ImgDownscaleThreshold ++
  jfRat "target_side_length" o.TargetSideLength ++
  jfBool "use_original_name_batch" o.UseOriginalNameBatch ++
  jfBool "use_upscaler_name_as_suffix" o.UseUpscalerNameAsSuffix ++
  jfBool "save_selected_only" o.SaveSelectedOnly ++
  jfBool "do_not_add_watermark" o.DoNotAddWatermark ++
  jfStr "temp_dir" o.TempDir ++
  jfBool "clean_temp_dir_at_start" o.CleanTempDirAtStart ++
  jfStr "outdir_samples" o.OutdirSamples ++
  jfStr "outdir_txt2img_samples" o.OutdirTxt2ImgSamples ++
  jfStr "outdir_img2img_samples" o.OutdirImg2ImgSamples ++
  jfStr "outdir_extras_samples" o.OutdirExtrasSamples ++
  jfStr "outdir_grids" o.OutdirGrids ++
  jfStr "outdir_txt2img_grids" o.OutdirTxt2ImgGrids ++
  jfStr "outdir_img2img_grids" o.OutdirImg2ImgGrids ++
  jfStr "outdir_save" o.OutdirSave ++
  jfBool "save_to_dirs" o.SaveToDirs ++
  jfBool "grid_save_to_dirs" o.GridSaveToDirs ++
  jfBool "use_save_to_dirs_for_ui" o.UseSaveToDirsForUI ++
  jfStr "directories_filename_pattern" o.DirectoriesFilenamePattern ++
  jfRat "directories_max_prompt_words" o.DirectoriesMaxPromptWords ++
  jfRat "ESRGAN_tile" o.ESRGANTile ++
  jfRat "ESRGAN_tile_overlap" o.ESRGANTileOverlap ++
  jfStrList "realesrgan_enabled_models" o.RealesrganEnabledModels ++
  jfStr "upscaler_for_img2img" o.UpscalerForImg2Img ++
  jfRat "ldsr_steps" o.LdsrSteps ++
  jfBool "ldsr_cached" o.LdsrCached ++
  jfRat "SWIN_tile" o.SWINTile ++
  jfRat "SWIN_tile_overlap" o.SWINTileOverlap ++
  jfStr "face_restoration_model" o.FaceRestorationModel ++
  jfRat "code_former_weight" o.CodeFormerWeight ++
  jfBool "face_restoration_unload" o.FaceRestorationUnload ++
  jfBool "show_warnings" o.ShowWarnings ++
  jfRat "memmon_poll_rate" o.MemmonPollRate ++
  jfBool "samples_log_stdout" o.SamplesLogStdout ++
  jfBool "multiple_tqdm" o.MultipleTqdm ++
  jfBool "print_hypernet_extra" o.PrintHypernetExtra ++
  jfBool "unload_models_when_training" o.UnloadModelsWhenTraining ++
  jfBool "pin_memory" o.PinMemory ++
  jfBool "save_optimizer_state" o.SaveOptimizerState ++
  jfBool "save_training_settings_to_txt" o.SaveTrainingSettingsToTxt ++
  jfStr "dataset_filename_word_regex" o.DatasetFilenameWordRegex ++
  jfStr "dataset_filename_join_string" o.DatasetFilenameJoinString ++
  jfRat "training_image_repeats_per_epoch" o.TrainingImageRepeatsPerEpoch ++
  jfRat "training_write_csv_every" o.TrainingWriteCsvEvery ++
  jfBool "training_xattention_optimizations" o.TrainingXattentionOptimizations ++
  jfBool "training_enable_tensorboard" o.TrainingEnableTensorboard ++
  jfBool "training_tensorboard_save_images" o.TrainingTensorboardSaveImages ++
  jfRat "training_tensorboard_flush_every" o.TrainingTensorboardFlushEvery ++
  jfRat "sd_checkpoint_cache" o.SdCheckpointCache ++
  jfRat "sd_vae_checkpoint_cache" o.SdVaeCheckpointCache ++
  jfStr "sd_vae" o.SdVae ++
  jfBool "sd_vae_as_default" o.SdVaeAsDefault ++
  jfRat "inpainting_mask_weight" o.InpaintingMaskWeight ++
  jfRat "initial_noise_multiplier" o.InitialNoiseMultiplier ++
  jfBool "img2img_color_correction" o.Img2ImgColorCorrection ++
  jfBool "img2img_fix_steps" o.Img2ImgFixSteps ++
  jfStr "img2img_background_color" o.Img2ImgBackgroundColor ++
  jfBool "enable_quantization" o.EnableQuantization ++
  jfBool "enable_emphasis" o.EnableEmphasis ++
  jfBool "enable_batch_seeds" o.EnableBatchSeeds ++
  jfRat "comma_padding_backtrack" o.CommaPaddingBacktrack ++
  jfRat "CLIP_stop_at_last_layers" o.CLIPStopAtLastLayers ++
  jfBool "upcast_attn" o.UpcastAttn ++
  jfBool "use_old_emphasis_implementation" o.UseOldEmphasisImplementation ++
  jfBool "use_old_karras_scheduler_sigmas" o.UseOldKarrasSchedulerSigmas ++
  jfBool "no_dpmpp_sde_batch_determinism" o.NoDpmppSdeBatchDeterminism ++
  jfBool "use_old_hires_fix_width_height" o.UseOldHiresFixWidthHeight ++
  jfBool "interrogate_keep_models_in_memory" o.InterrogateKeepModelsInMemory ++
  jfBool "interrogate_return_ranks" o.InterrogateReturnRanks ++
  jfRat "interrogate_clip_num_beams" o.InterrogateClipNumBeams ++
  jfRat "interrogate_clip_min_length" o.InterrogateClipMinLength ++
  jfRat "interrogate_clip_max_length" o.InterrogateClipMaxLength ++
  jfRat "interrogate_clip_dict_limit" o.InterrogateClipDictLimit ++
  jfJsonList "interrogate_clip_skip_categories" o.InterrogateClipSkipCategories ++
  jfRat "interrogate_deepbooru_score_threshold" o.InterrogateDeepbooruScoreThreshold ++
  jfBool "deepbooru_sort_alpha" o.DeepbooruSortAlpha ++
  jfBool "deepbooru_use_spaces" o.DeepbooruUseSpaces ++
  jfBool "deepbooru_escape" o.DeepbooruEscape ++
  jfStr "deepbooru_filter_tags" o.DeepbooruFilterTags ++
  jfStr "extra_networks_default_view" o.ExtraNetworksDefaultView ++
  jfRat "extra_networks_default_multiplier" o.ExtraNetworksDefaultMultiplier ++
  jfStr "sd_hypernetwork" o.SdHypernetwork ++
  jfStr "sd_lora" o.SdLora ++
  jfBool "lora_apply_to_outputs" o.LoraApplyToOutputs ++
  jfBool "return_grid" o.ReturnGrid ++
  jfBool "do_not_show_images" o.DoNotShowImages ++
  jfBool "add_model_hash_to_info" o.AddModelHashToInfo ++
  jfBool "add_model_name_to_info" o.AddModelNameToInfo ++
  jfBool "disable_weights_auto_swap" o.DisableWeightsAutoSwap ++
  jfBool "send_seed" o.SendSeed ++
  jfBool "send_size" o.SendSize ++
  jfStr "font" o.Font ++
  jfBool "js_modal_lightbox" o.JsModalLightbox ++
  jfBool "js_modal_lightbox_initially_zoomed" o.JsModalLightboxInitiallyZoomed ++
  jfBool "show_progress_in_title" o.ShowProgressInTitle ++
  jfBool "samplers_in_dropdown" o.SamplersInDropdown ++
  jfBool "dimensions_and_batch_together" o.DimensionsAndBatchTogether ++
  jfRat "keyedit_precision_attention" o.KeyeditPrecisionAttention ++
  jfRat "keyedit_precision_extra" o.KeyeditPrecisionExtra ++
  jfStr "quicksettings" o.Quicksettings ++
  jfStr "ui_reorder" o.UIReorder ++
  jfStr "ui_extra_networks_tab_reorder" o.UIExtraNetworksTabReorder ++
  jfStr "localization" o.Localization ++
  jfBool "show_progressbar" o.ShowProgressbar ++
  jfBool "live_previews_enable" o.LivePreviewsEnable ++
  jfBool "show_progress_grid" o.ShowProgressGrid ++
  jfRat "show_progress_every_n_steps" o.ShowProgressEveryNSteps ++
  jfStr "show_progress_type" o.ShowProgressType ++
  jfStr "live_preview_content" o.LivePreviewContent ++
  jfRat "live_preview_refresh_period" o.LivePreviewRefreshPeriod ++
  jfJsonList "hide_samplers" o.HideSamplers ++
  jfRat "eta_ddim" o.EtaDdim ++
  jfRat "eta_ancestral" o.EtaAncestral ++
  jfStr "ddim_discretize" o.DdimDiscretize ++
  jfRat "s_churn" o.SChurn ++
  jfRat "s_tmin" o.STmin ++
  jfRat "s_noise" o.SNoise ++
  jfRat "eta_noise_seed_delta" o.EtaNoiseSeedDelta ++
  jfBool "always_discard_next_to_last_sigma" o.AlwaysDiscardNextToLastSigma ++
  jfJsonList "postprocessing_enable_in_main_ui" o.PostprocessingEnableInMainUI ++
  jfJsonList "postprocessing_operation_order" o.PostprocessingOperationOrder ++
  jfRat "upscaling_max_images_in_cache" o.UpscalingMaxImagesInCache ++
  jfJsonList "disabled_extensions" o.DisabledExtensions ++
  jfStr "sd_checkpoint_hash" o.SdCheckpointHash

def optionsResponseZero : OptionsResponse :=
  ⟨"", false, "", "", false, false, "", false, false, false, 0, false, false, false, false, false, 0, false, 0, 0, false, false, false, false, "", false, "", "", "", "", "", "", "", "", false, false, false, "", 0, 0, 0, [], "", 0, false, 0, 0, "", 0, false, false, 0, false, false, false, false, false, false, false, "", "", 0, 0, false, false, false, 0, 0, 0, "", false, 0, 0, false, false, "", false, false, false, 0, 0, false, false, false, false, false, false, false, 0, 0, 0, 0, [], 0, false, false, false, "", "", 0, "", "", false, false, false, false, false, false, false, false, "", false, false, false, false, false, 0, 0, "", "", "", "", false, false, false, 0, "", "", 0, [], 0, 0, "", 0, 0, 0, 0, false, [], [], 0, [], ""⟩

structure Txt2ImageOption where
  Prompt : String
  NegativePrompt : String
  Steps : Int
  CfgScale : Rat
  Width : Int
  Height : Int
  SamplerIndex : String
  OverrideSettings : Option OptionsResponse
  EnableHR : Bool
  DenoisingStrength : Rat
  FirstPhaseWidth : Int
  FirstPhaseHeight : Int
  HRScale : Rat
  HrUpscaler : String
  HrSecondPassSteps : Int
  HrResizeX : Int
  HrResizeY : Int
  Styles : List String
  Seed : Int
  Subseed : Int
  SubseedStrength : Rat
  SeedResizeFromH : Int
  SeedResizeFromW : Int
  SamplerName : String
  BatchSize : Int
  NIter : Int
  RestoreFaces : Bool
  Tiling : Bool
  Eta : Rat
  SChurn : Rat
  STmax : Rat
  STmin : Rat
  SNoise : Rat
  OverrideSettingsRestoreAfterwards : Bool
  ScriptArgs : List JsonValue
  ScriptName : String

def txt2ImageOptionFields (o : Txt2ImageOption) : List (String × JsonValue) :=
  jfStr "prompt" o.Prompt ++
  jfStr "negative_prompt" o.NegativePrompt ++
  jfInt "steps" o.Steps ++
  jfRat "cfg_scale" o.CfgScale ++
  jfInt "width" o.Width ++
  jfInt "height" o.Height ++
  jfStr "sampler_index" o.SamplerIndex ++
  jfObjOpt "override_settings" (o.OverrideSettings.map optionsResponseFields) ++
  jfBool "enable_hr" o.EnableHR ++
  jfRat "denoising_strenght" o.DenoisingStrength ++
  jfInt "firstphase_width" o.FirstPhaseWidth ++
  jfInt "firstphase_height" o.FirstPhaseHeight ++
  jfRat "hr_scale" o.HRScale ++
  jfStr "hr_upscaler" o.HrUpscaler ++
  jfInt "hr_second_pass_steps" o.HrSecondPassSteps ++
  jfInt "hr_resize_x" o.HrResizeX ++
  jfInt "hr_resize_y" o.HrResizeY ++
  jfStrList "styles" o.Styles ++
  jfInt "seed" o.Seed ++
  jfInt "subseed" o.Subseed ++
  jfRat "subseed_strength" o.SubseedStrength ++
  jfInt "seed_resize_from_h" o.SeedResizeFromH ++
  jfInt "seed_resize_from_w" o.SeedResizeFromW ++
  jfStr "sampler_name" o.SamplerName ++
  jfInt "batch_size" o.BatchSize ++
  jfInt "n_iter" o.NIter ++
  jfBool "restore_faces" o.RestoreFaces ++
  jfBool "tiling" o.Tiling ++
  jfRat "eta" o.Eta ++
  jfRat "s_churn" o.SChurn ++
  jfRat "s_tmax" o.STmax ++
  jfRat "s_tmin" o.STmin ++
  jfRat "s_noise" o.SNoise ++
  jfBool "override_settings_restore_afterwards" o.OverrideSettingsRestoreAfterwards ++
  jfJsonList "script_args" o.ScriptArgs ++
  jfStr "script_name" o.ScriptName

def txt2ImageOptionZero : Txt2ImageOption :=
  ⟨"", "", 0, 0, 0, 0, "", none, false, 0, 0, 0, 0, "", 0, 0, 0, [], 0, 0, 0, 0, 0, "", 0, 0, false, false, 0, 0, 0, 0, 0, false, [], ""⟩

structure Img2ImgOption where
  InitImages : List String
  ResizeMode : Int
  DenoisingStrength : Rat
  ImageCfgScale : Rat
  Mask : String
  MaskBlur : Int
  InpaintingFill : Int
  InpaintFullRes : Bool
  InpaintFullResPadding : Int
  InpaintingMaskInvert : Int
  InitialNoiseMultiplier : Int
  Prompt : String
  Styles : List String
  Seed : Int
  Subseed : Int
  SubseedStrength : Rat
  SeedResizeFromH : Int
  SeedResizeFromW : Int
  SamplerName : String
  BatchSize : Int
  NIter : Int
  Steps : Int
  CfgScale : Rat
  Width : Int
  Height : Int
  RestoreFaces : Bool
  Tiling : Bool
  NegativePrompt : String
  Eta : Rat
  SChurn : Rat
  STmax : Rat
  STmin : Rat
  SNoise : Int
  OverrideSettings : Option OptionsResponse
  OverrideSettingsRestoreAfterwards : Bool
  ScriptArgs : List JsonValue
  SamplerIndex : String
  IncludeInitImages : Bool
  ScriptName : String

def img2ImgOptionFields (o : Img2ImgOption) : List (String × JsonValue) :=
  jfStrList "init_images" o.InitImages ++
  jfInt "resize_mode" o.ResizeMode ++
  jfRat "denoising_strength" o.DenoisingStrength ++
  jfRat "image_cfg_scale" o.ImageCfgScale ++
  jfStr "mask" o.Mask ++
  jfInt "mask_blur" o.MaskBlur ++
  jfInt "inpainting_fill" o.InpaintingFill ++
  jfBool "inpaint_full_res" o.InpaintFullRes ++
  jfInt "inpaint_full_res_padding" o.InpaintFullResPadding ++
  jfInt "inpainting_mask_invert" o.InpaintingMaskInvert ++
  jfInt "initial_noise_multiplier" o.InitialNoiseMultiplier ++
  jfStr "prompt" o.Prompt ++
  jfStrList "styles" o.Styles ++
  jfInt "seed" o.Seed ++
  jfInt "subseed" o.Subseed ++
  jfRat "subseed_strength" o.SubseedStrength ++
  jfInt "seed_resize_from_h" o.SeedResizeFromH ++
  jfInt "seed_resize_from_w" o.SeedResizeFromW ++
  jfStr "sampler_name" o.SamplerName ++
  jfInt "batch_size" o.BatchSize ++
  jfInt "n_iter" o.NIter ++
  jfInt "steps" o.Steps ++
  jfRat "cfg_scale" o.CfgScale ++
  jfInt "width" o.Width ++
  jfInt "height" o.Height ++
  jfBool "restore_faces" o.RestoreFaces ++
  jfBool "tiling" o.Tiling ++
  jfStr "negative_prompt" o.NegativePrompt ++
  jfRat "eta" o.Eta ++
  jfRat "s_churn" o.SChurn ++
  jfRat "s_tmax" o.STmax ++
  jfRat "s_tmin" o.STmin ++
  jfInt "s_noise" o.SNoise ++
  jfObjOpt "override_settings" (o.OverrideSettings.map optionsResponseFields) ++
  jfBool "override_settings_restore_afterwards" o.OverrideSettingsRestoreAfterwards ++
  jfJsonList "script_args" o.ScriptArgs ++
  jfStr "sampler_index" o.SamplerIndex ++
  jfBool "include_init_images" o.IncludeInitImages ++
  jfStr "script_name" o.ScriptName

def img2ImgOptionZero : Img2ImgOption :=
  ⟨[], 0, 0, 0, "", 0, 0, false, 0, 0, 0, "", [], 0, 0, 0, 0, 0, "", 0, 0, 0, 0, 0, 0, false, false, "", 0, 0, 0, 0, 0, none, false, [], "", false, ""⟩

structure ExtraSingleImgOption where
  ResizeMode : Int
  ShowExtrasResults : Bool
  GfpganVisibility : Int
  CodeformerVisibility : Int
  CodeformerWeight : Int
  UpscalingResize : Int
  UpscalingResizeW : Int
  UpscalingResizeH : Int
  UpscalingCrop : Bool
  Upscaler1 : String
  Upscaler2 : String
  ExtrasUpscaler2Visibility : Int
  UpscaleFirst : Bool
  Image : String

def extraSingleImgOptionFields (o : ExtraSingleImgOption) : List (String × JsonValue) :=
  jfInt "resize_mode" o.ResizeMode ++
  jfBool "show_extras_results" o.ShowExtrasResults ++
  jfInt "gfpgan_visibility" o.GfpganVisibility ++
  jfInt "codeformer_visibility" o.CodeformerVisibility ++
  jfInt "codeformer_weight" o.CodeformerWeight ++
  jfInt "upscaling_resize" o.UpscalingResize ++
  jfInt "upscaling_resize_w" o.UpscalingResizeW ++
  jfInt "upscaling_resize_h" o.UpscalingResizeH ++
  jfBool "upscaling_crop" o.UpscalingCrop ++
  jfStr "upscaler_1" o.Upscaler1 ++
  jfStr "upscaler_2" o.Upscaler2 ++
  jfInt "extras_upscaler_2_visibility" o.ExtrasUpscaler2Visibility ++
  jfBool "upscale_first" o.UpscaleFirst ++
  jfStr "image" o.Image

def extraSingleImgOptionZero : ExtraSingleImgOption :=
  ⟨0, false, 0, 0, 0, 0, 0, 0, false, "", "", 0, false, ""⟩

/-- An HTTP response as seen by `doReq` after draining the body: the
status code and the body text. -/
structure HttpResponse where
  statusCode : Nat
  body : String
deriving Repr, DecidableEq

/-- The error value of the package (`type Error struct`): an optional
underlying cause (its message), a human-readable message, and the HTTP
response that triggered the failure, when there is one. -/
structure Error where
  err : Option String
  msg : String
  response : Option HttpResponse
deriving Repr, DecidableEq

/-- The message of an `Error`, as produced by its `Error()` method:
`fmt.Sprintf("%s: %+v", e.Msg, e.Err)`. -/
def Error.errorString (e : Error) : String :=
  e.msg ++ ": " ++ (match e.err with | none => "<nil>" | some m => m)

/-- An outgoing HTTP request as built by `doReq`: method, full URL, the
`Content-Type` header, the basic-auth credentials when set, and the
encoded body, when there is one. -/
structure Request where
  method : String
  url : String
  contentType : String
  basicAuth : Option (String × String)
  body : Option String
deriving Repr, DecidableEq

/-- The API client (`type Client struct`): the HTTP transport handle
(opaque, possibly nil, modelled as `Option Unit`), the base URL, and the
username/password fields read by `doReq`. -/
structure Client where
  cli : Option Unit
  baseURL : String
  username : String
  password : String
deriving Repr, DecidableEq

/-- Model of `NewClient`: defaults an empty base URL to
`http://127.0.0.1:7860`, stores the transport handle and the base URL in
the client, and returns a nil error.  (As in the source, the `username`
and `password` arguments are not stored: the struct literal sets only
`cli` and `baseURL`, leaving the credential fields at their zero value.) -/
def NewClient (baseURL username password : String) (httpCli : Option Unit) :
    Client × Option Error :=
  let baseURL := if baseURL.length = 0 then "http://127.0.0.1:7860" else baseURL
  ({ cli := httpCli, baseURL := baseURL, username := "", password := "" }, none)

/-- The request-construction half of `doReq`: the URL is
`fmt.Sprintf("%s/sdapi/v1%s", c.baseURL, path)`, the content type is
always `application/json`, and basic-auth credentials are attached
exactly when both stored fields are non-empty. -/
def buildRequest (c : Client) (path method : String) (body : Option String) :
    Request :=
  { method := method
    url := c.baseURL ++ "/sdapi/v1" ++ path
    contentType := "application/json"
    basicAuth :=
      if c.username.length ≠ 0 ∧ c.password.length ≠ 0 then
        some (c.username, c.password)
      else none
    body := body }

/-- The response-handling half of `doReq`: a status code different from
the expected one yields the bad-status error carrying the numeric code
and the raw body text; otherwise the body is JSON-decoded by `unmarshal`
(the stand-in for `json.Unmarshal` into the endpoint result type), a
decode failure yielding the parse error wrapping the JSON cause. -/
def handleResponse {R : Type} (unmarshal : String → Except String R)
    (expectedStatus : Nat) (resp : HttpResponse) : Except Error R :=
  if resp.statusCode ≠ expectedStatus then
    .error { err := none
             msg := "got bad status " ++ toString resp.statusCode ++
               ", body: " ++ resp.body
             response := some resp }
  else
    match unmarshal resp.body with
    | .error e =>
      .error { err := some e, msg := "failed to parse response", response := some resp }
    | .ok r => .ok r

/-- Model of `doReq`: build the request, run it through the transport
(the stand-in for `c.cli.Do`, which may fail with a transport error), and
handle the response.  The body, when present, is already JSON-encoded by
the caller (the option structs of this package never fail to encode). -/
def doReq {R : Type} (c : Client) (path method : String) (body : Option String)
    (transport : Request → Except String HttpResponse)
    (unmarshal : String → Except String R) (expectedStatus : Nat) :
    Except Error R :=
  let req := buildRequest c path method body
  match transport req with
  | .error e => .error { err := some e, msg := "failed to do request", response := none }
  | .ok resp => handleResponse unmarshal expectedStatus resp

/-- The post-decode enrichment loop shared verbatim by `Txt2Img` and
`Img2Img`: for each base64 image string, apply the payload-extraction
step, base64-decode it (skipping the entry on failure), collect the raw
bytes, PNG-decode them (skipping the image on failure), and collect the
decoded image.  `b64` and `png` stand for
`base64.StdEncoding.DecodeString` and `png.Decode`. -/
def decodeImages {Img : Type} (b64 : String → Option (List Nat))
    (png : List Nat → Option Img) : List String → List (List Nat) × List Img
  | [] => ([], [])
  | raw :: rest =>
    match b64 (extractPayload raw) with
    | none => decodeImages b64 png rest
    | some data =>
      let p := decodeImages b64 png rest
      match png data with
      | none => (data :: p.1, p.2)
      | some img => (data :: p.1, img :: p.2)

/-- The `Txt2ImageResponse` struct; the `Img` parameter stands for the
opaque `image.Image` interface, raw images are byte lists. -/
structure Txt2ImageResponse (Img : Type) where
  Images : List String
  Parameters : Option Txt2ImageOption
  Info : String
  ParsedImages : List Img
  RawImages : List (List Nat)

/-- Model of `Client.Txt2Img`: POST the option struct to `/txt2img`
expecting status 200, then enrich the decoded response with the parsed
and raw image lists. -/
def Txt2Img {Img : Type} (b64 : String → Option (List Nat))
    (png : List Nat → Option Img) (c : Client)
    (transport : Request → Except String HttpResponse)
    (unmarshal : String → Except String (Txt2ImageResponse Img))
    (opt : Txt2ImageOption) : Except Error (Txt2ImageResponse Img) :=
  match doReq c "/txt2img" "POST"
      (some (renderJson (.obj (txt2ImageOptionFields opt)) ++ "\n"))
      transport unmarshal 200 with
  | .error e => .error e
  | .ok res =>
    let p := decodeImages b64 png res.Images
    .ok { res with ParsedImages := p.2, RawImages := p.1 }

/-- The `Img2ImgResponse` struct. -/
structure Img2ImgResponse (Img : Type) where
  Images : List String
  Parameters : Option Txt2ImageOption
  Info : String
  ParsedImages : List Img
  RawImages : List (List Nat)

/-- Model of `Client.Img2Img`: POST the option struct to `/img2img`
expecting status 200, then enrich the decoded response with the parsed
and raw image lists (the same loop as `Txt2Img`). -/
def Img2Img {Img : Type} (b64 : String → Option (List Nat))
    (png : List Nat → Option Img) (c : Client)
    (transport : Request → Except String HttpResponse)
    (unmarshal : String → Except String (Img2ImgResponse Img))
    (opt : Img2ImgOption) : Except Error (Img2ImgResponse Img) :=
  match doReq c "/img2img" "POST"
      (some (renderJson (.obj (img2ImgOptionFields opt)) ++ "\n"))
      transport unmarshal 200 with
  | .error e => .error e
  | .ok res =>
    let p := decodeImages b64 png res.Images
    .ok { res with ParsedImages := p.2, RawImages := p.1 }

/-- The `ExtraSingleImgResponse` struct; the derived fields start out nil
(`none`) after JSON decoding. -/
structure ExtraSingleImgResponse (Img : Type) where
  HTMLInfo : String
  Image : String
  ParsedImage : Option Img
  RawImage : Option (List Nat)

/-- Model of `Client.ExtraSingleImg`: POST the option struct to
`/extra-single-image` expecting status 200, then enrich the single image
field, leaving the derived fields untouched on decode failure. -/
def ExtraSingleImg {Img : Type} (b64 : String → Option (List Nat))
    (png : List Nat → Option Img) (c : Client)
    (transport : Request → Except String HttpResponse)
    (unmarshal : String → Except String (ExtraSingleImgResponse Img))
    (opt : ExtraSingleImgOption) : Except Error (ExtraSingleImgResponse Img) :=
  match doReq c "/extra-single-image" "POST"
      (some (renderJson (.obj (extraSingleImgOptionFields opt)) ++ "\n"))
      transport unmarshal 200 with
  | .error e => .error e
  | .ok res =>
    let raw := extractPayload res.Image
    match b64 raw with
    | none => .ok res
    | some data =>
      match png data with
      | none => .ok { res with RawImage := some data }
      | some img => .ok { res with RawImage := some data, ParsedImage := some img }

/-- Model of `Img2RawBase64`: PNG-encode the image (`pngEncode` stands
for `png.Encode` into a fresh buffer) and base64 the bytes. -/
def Img2RawBase64 {Img : Type} (pngEncode : Img → List Nat) (img : Img) : String :=
  base64StdEncode (pngEncode img)

/-- Model of `Img2Base64`: the data-URL-prefixed variant of
`Img2RawBase64`, built from the same PNG encoding. -/
def Img2Base64 {Img : Type} (pngEncode : Img → List Nat) (img : Img) : String :=
  "data:image/png;base64," ++ base64StdEncode (pngEncode img)

/-- Model of `ImgBytes2Base64`: data-URL prefix over already-encoded PNG
bytes. -/
def ImgBytes2Base64 (data : List Nat) : String :=
  "data:image/png;base64," ++ base64StdEncode data

/-!
Helper lemmas shared by the claim theorems below.
-/

/-- `strings.SplitN(raw, ",", 1)[0]` is the whole input: a limit of 1
allows no split at all, so the payload-extraction step is the identity. -/
theorem extractPayload_id (raw : String) : extractPayload raw = raw := rfl

/-- The enrichment loop collects exactly the entries whose base64 decode
succeeds (raw bytes) and, of those, the ones whose PNG decode also
succeeds (parsed images), in order. -/
theorem decodeImages_eq_filterMap {Img : Type} (b64 : String → Option (List Nat))
    (png : List Nat → Option Img) (l : List String) :
    decodeImages b64 png l =
      (l.filterMap (fun raw => b64 (extractPayload raw)),
       l.filterMap (fun raw => (b64 (extractPayload raw)).bind png)) := by
  induction l with
  | nil => simp [decodeImages]
  | cons raw rest ih =>
    simp only [decodeImages, List.filterMap_cons]
    cases hb : b64 (extractPayload raw) with
    | none => simpa using ih
    | some data =>
      cases hp : png data with
      | none => simp [ih, hp]
      | some img => simp [ih, hp]

/-- Length chain for the enrichment loop: no more parsed images than raw
byte slices, and no more raw byte slices than input strings. -/
theorem decodeImages_lengths {Img : Type} (b64 : String → Option (List Nat))
    (png : List Nat → Option Img) (l : List String) :
    (decodeImages b64 png l).2.length ≤ (decodeImages b64 png l).1.length ∧
    (decodeImages b64 png l).1.length ≤ l.length := by
  induction l with
  | nil => simp [decodeImages]
  | cons raw rest ih =>
    simp only [decodeImages, List.length_cons]
    cases hb : b64 (extractPayload raw) with
    | none => exact ⟨ih.1, Nat.le_succ_of_le ih.2⟩
    | some data =>
      cases hp : png data with
      | none =>
        simp only [hp, List.length_cons]
        exact ⟨Nat.le_succ_of_le ih.1, Nat.succ_le_succ ih.2⟩
      | some img =>
        simp only [hp, List.length_cons]
        exact ⟨Nat.succ_le_succ ih.1, Nat.succ_le_succ ih.2⟩

/-!
Claim theorems.
-/

/-- C1: the claim states that a client built by `NewClient` with
non-empty username and password attaches those credentials as basic auth
to every request.  The code does not: `NewClient` never stores its
`username`/`password` arguments in the client (the struct literal sets
only `cli` and `baseURL`), so the credential check in `doReq` always
sees empty fields and no request ever carries basic-auth credentials,
whatever the arguments were. -/
theorem c1_newclient_discards_credentials
    (baseURL username password : String) (httpCli : Option Unit)
    (path method : String) (body : Option String) :
    (buildRequest (NewClient baseURL username password httpCli).1
        path method body).basicAuth = none := by
  simp [NewClient, buildRequest]

/-- C2 (counterexample): the claim states that the payload-extraction
step returns the prefix of the string before the first comma.  On the
input `"abc,def"` the code returns the whole string `"abc,def"`, not
`"abc"`: `strings.SplitN` with limit 1 performs no split. -/
theorem c2_counterexample_whole_string_kept :
    extractPayload "abc,def" = "abc,def" ∧ extractPayload "abc,def" ≠ "abc" :=
  ⟨extractPayload_id "abc,def", by decide⟩

/-- C2 (amended): the payload-extraction step performed during
post-decode enrichment returns every base64 image string unchanged,
whether or not it contains a comma — `strings.SplitN(raw, ",", 1)`
returns the one-element list holding the whole string, so nothing is
ever stripped before base64 decoding. -/
theorem c2_extraction_is_identity (raw : String) :
    extractPayload raw = raw :=
  extractPayload_id raw

/-- C3: whenever the response status code differs from the expected one
(200 for every endpoint), `doReq` returns the bad-status error, whose
message contains the numeric status code and the literal body text, and
the result does not depend on the JSON decoder at all (the decode step
is never reached: the statement holds for an arbitrary `unmarshal`). -/
theorem c3_bad_status_yields_status_error {R : Type}
    (unmarshal : String → Except String R) (expectedStatus : Nat)
    (resp : HttpResponse) (h : resp.statusCode ≠ expectedStatus) :
    handleResponse unmarshal expectedStatus resp =
      .error { err := none
               msg := "got bad status " ++ toString resp.statusCode ++
                 ", body: " ++ resp.body
               response := some resp } ∧
    (∃ pre post,
      "got bad status " ++ toString resp.statusCode ++ ", body: " ++ resp.body =
        pre ++ toString resp.statusCode ++ post) ∧
    (∃ pre,
      "got bad status " ++ toString resp.statusCode ++ ", body: " ++ resp.body =
        pre ++ resp.body) := by
  refine ⟨by simp [handleResponse, h], ?_, ?_⟩
  · exact ⟨"got bad status ", ", body: " ++ resp.body,
      by simp [String.append_assoc]⟩
  · exact ⟨"got bad status " ++ toString resp.statusCode ++ ", body: ", rfl⟩

/-- C3 (witness): the status error at the concrete response `404 / "not
found"` when 200 was expected. -/
theorem c3_bad_status_yields_status_error_witness :
    (404 : Nat) ≠ 200 ∧
    (handleResponse (fun _ => (Except.error "junk" : Except String Nat)) 200
        ⟨404, "not found"⟩ =
      .error { err := none
               msg := "got bad status " ++ toString (404 : Nat) ++
                 ", body: " ++ "not found"
               response := some ⟨404, "not found"⟩ } ∧
    (∃ pre post,
      "got bad status " ++ toString (404 : Nat) ++ ", body: " ++ "not found" =
        pre ++ toString (404 : Nat) ++ post) ∧
    (∃ pre,
      "got bad status " ++ toString (404 : Nat) ++ ", body: " ++ "not found" =
        pre ++ "not found")) :=
  ⟨by decide,
    c3_bad_status_yields_status_error
      (fun _ => (Except.error "junk" : Except String Nat)) 200
      ⟨404, "not found"⟩ (by decide)⟩

/-- C5: when the status code matches the expected one but the body fails
to decode as JSON for the endpoint's response type, `doReq` returns an
ordinary decode-error value carrying the underlying JSON cause and the
response (being a total function, it can neither panic nor crash). -/
theorem c5_malformed_json_yields_decode_error {R : Type}
    (unmarshal : String → Except String R) (expectedStatus : Nat)
    (resp : HttpResponse) (cause : String)
    (hs : resp.statusCode = expectedStatus)
    (hu : unmarshal resp.body = .error cause) :
    handleResponse unmarshal expectedStatus resp =
      .error { err := some cause
               msg := "failed to parse response"
               response := some resp } := by
  simp [handleResponse, hs, hu]

/-- C5 (witness): the decode error at the concrete response `200 / "not
json"` with a decoder failing with a concrete cause. -/
theorem c5_malformed_json_yields_decode_error_witness :
    (200 : Nat) = 200 ∧
    (fun _ => (Except.error "invalid character" : Except String Nat)) "not json" =
      .error "invalid character" ∧
    handleResponse (fun _ => (Except.error "invalid character" : Except String Nat))
        200 ⟨200, "not json"⟩ =
      .error { err := some "invalid character"
               msg := "failed to parse response"
               response := some ⟨200, "not json"⟩ } :=
  ⟨rfl, rfl,
    c5_malformed_json_yields_decode_error
      (fun _ => (Except.error "invalid character" : Except String Nat)) 200
      ⟨200, "not json"⟩ "invalid character" rfl rfl⟩

/-- C7: every request URL is the base URL, then the fixed prefix
`/sdapi/v1`, then the endpoint path; `NewClient` replaces an empty base
URL with the loopback default `http://127.0.0.1:7860` and keeps any
non-empty base URL unchanged. -/
theorem c7_url_shape_and_default_base
    (c : Client) (path method : String) (body : Option String)
    (base u p : String) (httpCli : Option Unit) :
    (buildRequest c path method body).url = c.baseURL ++ "/sdapi/v1" ++ path ∧
    (NewClient "" u p httpCli).1.baseURL = "http://127.0.0.1:7860" ∧
    (base.length ≠ 0 → (NewClient base u p httpCli).1.baseURL = base) := by
  refine ⟨rfl, rfl, fun hb => ?_⟩
  simp [NewClient, hb]

/-- C7 (witness): the URL shape and both base-URL cases at concrete
inputs. -/
theorem c7_url_shape_and_default_base_witness :
    (buildRequest ⟨none, "http://host:1", "", ""⟩ "/txt2img" "POST" none).url =
      "http://host:1" ++ "/sdapi/v1" ++ "/txt2img" ∧
    (NewClient "" "u" "p" none).1.baseURL = "http://127.0.0.1:7860" ∧
    (NewClient "http://host:1" "u" "p" none).1.baseURL = "http://host:1" :=
  ⟨(c7_url_shape_and_default_base ⟨none, "http://host:1", "", ""⟩ "/txt2img"
      "POST" none "http://host:1" "u" "p" none).1,
   (c7_url_shape_and_default_base ⟨none, "http://host:1", "", ""⟩ "/txt2img"
      "POST" none "http://host:1" "u" "p" none).2.1,
   (c7_url_shape_and_default_base ⟨none, "http://host:1", "", ""⟩ "/txt2img"
      "POST" none "http://host:1" "u" "p" none).2.2 (by decide)⟩

/-- C8: for every in-memory image (and every PNG encoding of it, since
both helpers encode with the same `png.Encode`), the data-URL helper is
the literal prefix `data:image/png;base64,` concatenated with the bare
base64 helper. -/
theorem c8_data_url_helper_relation {Img : Type}
    (pngEncode : Img → List Nat) (img : Img) :
    Img2Base64 pngEncode img =
      "data:image/png;base64," ++ Img2RawBase64 pngEncode img := rfl

/-- C10: `NewClient` returns a nil error for every combination of
arguments, including a nil transport handle: construction never fails. -/
theorem c10_newclient_never_fails
    (baseURL username password : String) (httpCli : Option Unit) :
    (NewClient baseURL username password httpCli).2 = none := rfl

/-- C6: serialising a request option struct in which every field holds
its zero value produces the empty JSON object: every field of
`Txt2ImageOption`, `Img2ImgOption` and `ExtraSingleImgOption` is tagged
`omitempty`, so no key at all is emitted and the marshalled body is
exactly `\x7b\x7d`. -/
theorem c6_zero_option_structs_serialize_empty :
    txt2ImageOptionFields txt2ImageOptionZero = [] ∧
    img2ImgOptionFields img2ImgOptionZero = [] ∧
    extraSingleImgOptionFields extraSingleImgOptionZero = [] ∧
    renderJson (.obj (txt2ImageOptionFields txt2ImageOptionZero)) = "\x7b\x7d" ∧
    renderJson (.obj (img2ImgOptionFields img2ImgOptionZero)) = "\x7b\x7d" ∧
    renderJson (.obj (extraSingleImgOptionFields extraSingleImgOptionZero)) = "\x7b\x7d" :=
  ⟨rfl, rfl, rfl, rfl, rfl, rfl⟩

/-- C4: when the HTTP round trip of `Txt2Img` or `Img2Img` succeeds, the
enrichment step drops exactly the entries whose base64 or PNG decode
fails, keeps decoding the remaining entries (the parsed-image list is
the `filterMap` of both decoders over the input), the call as a whole
still returns successfully for every combination of decoder failures,
and the decoded-image list is never longer than the input list. -/
theorem c4_per_image_decode_failures_are_nonfatal {Img : Type}
    (b64 : String → Option (List Nat)) (png : List Nat → Option Img)
    (c : Client) (transport : Request → Except String HttpResponse)
    (ut : String → Except String (Txt2ImageResponse Img))
    (ui : String → Except String (Img2ImgResponse Img))
    (optT : Txt2ImageOption) (optI : Img2ImgOption)
    (resT : Txt2ImageResponse Img) (resI : Img2ImgResponse Img)
    (hT : doReq c "/txt2img" "POST"
        (some (renderJson (.obj (txt2ImageOptionFields optT)) ++ "\n"))
        transport ut 200 = .ok resT)
    (hI : doReq c "/img2img" "POST"
        (some (renderJson (.obj (img2ImgOptionFields optI)) ++ "\n"))
        transport ui 200 = .ok resI) :
    Txt2Img b64 png c transport ut optT =
      .ok { resT with
            ParsedImages := resT.Images.filterMap
              (fun raw => (b64 (extractPayload raw)).bind png)
            RawImages := resT.Images.filterMap
              (fun raw => b64 (extractPayload raw)) } ∧
    (resT.Images.filterMap
      (fun raw => (b64 (extractPayload raw)).bind png)).length ≤
        resT.Images.length ∧
    Img2Img b64 png c transport ui optI =
      .ok { resI with
            ParsedImages := resI.Images.filterMap
              (fun raw => (b64 (extractPayload raw)).bind png)
            RawImages := resI.Images.filterMap
              (fun raw => b64 (extractPayload raw)) } ∧
    (resI.Images.filterMap
      (fun raw => (b64 (extractPayload raw)).bind png)).length ≤
        resI.Images.length := by
  refine ⟨?_, List.length_filterMap_le _ _, ?_, List.length_filterMap_le _ _⟩
  · simp [Txt2Img, hT, decodeImages_eq_filterMap]
  · simp [Img2Img, hI, decodeImages_eq_filterMap]

/-- C4 (witness): a concrete round trip whose image list holds one entry
that decodes and one whose base64 decode fails; both calls succeed and
the decoded lists are shorter than the input list. -/
theorem c4_per_image_decode_failures_are_nonfatal_witness :
    Txt2Img (fun s => if s = "ok" then some [1] else none)
        (fun d => if d = [1] then some () else none)
        ⟨none, "b", "", ""⟩ (fun _ => .ok ⟨200, "body"⟩)
        (fun _ => .ok ⟨["ok", "bad"], none, "info", [], []⟩)
        txt2ImageOptionZero =
      .ok { Images := ["ok", "bad"], Parameters := none, Info := "info"
            ParsedImages := ["ok", "bad"].filterMap
              (fun raw => ((if extractPayload raw = "ok" then some [1] else none)).bind
                (fun d => if d = [1] then some () else none))
            RawImages := ["ok", "bad"].filterMap
              (fun raw => if extractPayload raw = "ok" then some [1] else none) } ∧
    (["ok", "bad"].filterMap
      (fun raw => ((if extractPayload raw = "ok" then some [1] else none)).bind
        (fun d => if d = [1] then some () else none))).length ≤
      ["ok", "bad"].length ∧
    Img2Img (fun s => if s = "ok" then some [1] else none)
        (fun d => if d = [1] then some () else none)
        ⟨none, "b", "", ""⟩ (fun _ => .ok ⟨200, "body"⟩)
        (fun _ => .ok ⟨["ok", "bad"], none, "info", [], []⟩)
        img2ImgOptionZero =
      .ok { Images := ["ok", "bad"], Parameters := none, Info := "info"
            ParsedImages := ["ok", "bad"].filterMap
              (fun raw => ((if extractPayload raw = "ok" then some [1] else none)).bind
                (fun d => if d = [1] then some () else none))
            RawImages := ["ok", "bad"].filterMap
              (fun raw => if extractPayload raw = "ok" then some [1] else none) } ∧
    (["ok", "bad"].filterMap
      (fun raw => ((if extractPayload raw = "ok" then some [1] else none)).bind
        (fun d => if d = [1] then some () else none))).length ≤
      ["ok", "bad"].length :=
  c4_per_image_decode_failures_are_nonfatal
    (fun s => if s = "ok" then some [1] else none)
    (fun d => if d = [1] then some () else none)
    ⟨none, "b", "", ""⟩ (fun _ => .ok ⟨200, "body"⟩)
    (fun _ => .ok ⟨["ok", "bad"], none, "info", [], []⟩)
    (fun _ => .ok ⟨["ok", "bad"], none, "info", [], []⟩)
    txt2ImageOptionZero img2ImgOptionZero
    ⟨["ok", "bad"], none, "info", [], []⟩
    ⟨["ok", "bad"], none, "info", [], []⟩
    (by rfl) (by rfl)

/-- C9: for every successful `Txt2Img` or `Img2Img` call the returned
response satisfies `len ParsedImages ≤ len RawImages ≤ len Images`, and
an entry whose base64 decode succeeds while its PNG decode fails is
prepended to the raw byte-slice list but omitted from the parsed-image
list, so the two derived lists need not have equal length. -/
theorem c9_parsed_le_raw_le_images {Img : Type}
    (b64 : String → Option (List Nat)) (png : List Nat → Option Img)
    (c : Client) (transport : Request → Except String HttpResponse)
    (ut : String → Except String (Txt2ImageResponse Img))
    (ui : String → Except String (Img2ImgResponse Img))
    (optT : Txt2ImageOption) (optI : Img2ImgOption)
    (rT : Txt2ImageResponse Img) (rI : Img2ImgResponse Img)
    (raw : String) (data : List Nat) (rest : List String)
    (hT : Txt2Img b64 png c transport ut optT = .ok rT)
    (hI : Img2Img b64 png c transport ui optI = .ok rI)
    (hb : b64 (extractPayload raw) = some data)
    (hp : png data = none) :
    (rT.ParsedImages.length ≤ rT.RawImages.length ∧
     rT.RawImages.length ≤ rT.Images.length) ∧
    (rI.ParsedImages.length ≤ rI.RawImages.length ∧
     rI.RawImages.length ≤ rI.Images.length) ∧
    decodeImages b64 png (raw :: rest) =
      (data :: (decodeImages b64 png rest).1, (decodeImages b64 png rest).2) := by
  refine ⟨?_, ?_, by simp [decodeImages, hb, hp]⟩
  · cases hd : doReq c "/txt2img" "POST"
        (some (renderJson (.obj (txt2ImageOptionFields optT)) ++ "\n"))
        transport ut 200 with
    | error e => simp [Txt2Img, hd] at hT
    | ok res =>
      simp only [Txt2Img, hd, Except.ok.injEq] at hT
      subst hT
      exact ⟨(decodeImages_lengths b64 png res.Images).1,
        (decodeImages_lengths b64 png res.Images).2⟩
  · cases hd : doReq c "/img2img" "POST"
        (some (renderJson (.obj (img2ImgOptionFields optI)) ++ "\n"))
        transport ui 200 with
    | error e => simp [Img2Img, hd] at hI
    | ok res =>
      simp only [Img2Img, hd, Except.ok.injEq] at hI
      subst hI
      exact ⟨(decodeImages_lengths b64 png res.Images).1,
        (decodeImages_lengths b64 png res.Images).2⟩

/-- C9 (witness): a concrete successful round trip in which the entry
`"ok"` base64-decodes to `[1]` but fails PNG decoding: it lands in the
raw list and not in the parsed list, and the length chain holds. -/
theorem c9_parsed_le_raw_le_images_witness :
    (([] : List Unit).length ≤ [[(1 : Nat)]].length ∧
     [[(1 : Nat)]].length ≤ ["ok", "bad"].length) ∧
    (([] : List Unit).length ≤ [[(1 : Nat)]].length ∧
     [[(1 : Nat)]].length ≤ ["ok", "bad"].length) ∧
    decodeImages (fun s => if s = "ok" then some [1] else none)
        (fun _ => (none : Option Unit)) ("ok" :: ["bad"]) =
      ([1] :: (decodeImages (fun s => if s = "ok" then some [1] else none)
          (fun _ => (none : Option Unit)) ["bad"]).1,
        (decodeImages (fun s => if s = "ok" then some [1] else none)
          (fun _ => (none : Option Unit)) ["bad"]).2) :=
  c9_parsed_le_raw_le_images
    (fun s => if s = "ok" then some [1] else none)
    (fun _ => (none : Option Unit))
    ⟨none, "b", "", ""⟩ (fun _ => .ok ⟨200, "body"⟩)
    (fun _ => .ok ⟨["ok", "bad"], none, "", [], []⟩)
    (fun _ => .ok ⟨["ok", "bad"], none, "", [], []⟩)
    txt2ImageOptionZero img2ImgOptionZero
    ⟨["ok", "bad"], none, "", [], [[1]]⟩
    ⟨["ok", "bad"], none, "", [], [[1]]⟩
    "ok" [1] ["bad"]
    (by rfl) (by rfl) (by rfl) (by rfl)

end Sdcli
